import Mathlib

/-!
Shallow embedding of the `labutils` repository (files `labutils/models.py`
and `labutils/biomass.py`) and verification of the specification claims
about it.

Conventions of the embedding:
* numpy floating point values are modelled by real numbers (`ℝ`) where
  transcendental functions appear, and by rationals (`ℚ`) elsewhere;
* timestamps are modelled as integer seconds (`ℤ`); a polars `Duration`
  is the integer difference of two such timestamps, and
  `.dt.total_seconds()` is the identity on that difference;
* a polars `DataFrame` is a list of named columns; indexing a missing
  column, which raises in polars, is modelled with `Option` / `Except`;
* `null` aggregation results (polars `std` over a single element) are
  modelled as `Option.none`;
* Python exceptions escaping a function are modelled with `Except`:
  the first raised error aborts the computation;
* file-system side effects (report and workbook writing in
  `get_growth_rates`) are modelled as an explicit trace of
  `WriteAction`s returned alongside the result.
-/

/-! ### models.py -/

/-- Function `gompertz(t, A, B, C)` from `models.py`:
`A * np.exp(-np.exp((B * np.e / A) * (C - t) + 1))`,
with `np.e` the Euler number `Real.exp 1`. -/
noncomputable def gompertz (t A B C : ℝ) : ℝ :=
  A * Real.exp (-Real.exp ((B * Real.exp 1 / A) * (C - t) + 1))

/-- Modelled from the spec: the growth-model formula as §4.3 writes it,
`value(t; A, B, C) = A · exp( −exp( (B·e / A)·(C − t) + 1 ) )`,
where `e` is Euler's number. Used only to compare with `gompertz`. -/
noncomputable def growthModelSpecValue (t A B C : ℝ) : ℝ :=
  A * Real.exp (-Real.exp ((B * Real.exp 1 / A) * (C - t) + 1))

/-- One lmfit `Parameter` as configured by `fit_gompertz`: an initial
value, an optional lower bound (`params[name].min`) and an optional upper
bound (`params[name].max`); `none` models lmfit's infinite default. -/
structure ParamCfg where
  start : ℝ
  lower : Option ℝ
  upper : Option ℝ

/-- The three lmfit parameters of the gompertz model. -/
structure GompertzParamSet where
  A : ParamCfg
  B : ParamCfg
  C : ParamCfg

/-- Call `model.make_params(A=A, B=B, C=C)`: all bounds at their infinite
lmfit defaults, modelled as `none`. -/
def make_params (a b c : ℝ) : GompertzParamSet :=
  ⟨⟨a, none, none⟩, ⟨b, none, none⟩, ⟨c, none, none⟩⟩

/-- The parameter configuration that `fit_gompertz` hands to
`model.fit`: `params["A"].min = xmin[0]`, `params["B"].min = xmin[1]`,
`params["C"].min = xmin[2]`, and no `.max` is ever assigned. -/
def fit_gompertz_params (a b c : ℝ) (xmin : ℝ × ℝ × ℝ) : GompertzParamSet :=
  let p := make_params a b c
  { A := { p.A with lower := some xmin.1 },
    B := { p.B with lower := some xmin.2.1 },
    C := { p.C with lower := some xmin.2.2 } }

/-- A value satisfies one lmfit parameter's box constraint: at least the
lower bound when one is set, at most the upper bound when one is set. -/
def ParamCfg.admits (cfg : ParamCfg) (v : ℝ) : Prop :=
  (∀ m, cfg.lower = some m → m ≤ v) ∧ (∀ m, cfg.upper = some m → v ≤ m)

/-- A triple of fitted values satisfies the box constraints of a
gompertz parameter set. -/
def GompertzParamSet.admits (ps : GompertzParamSet) (v : ℝ × ℝ × ℝ) : Prop :=
  ps.A.admits v.1 ∧ ps.B.admits v.2.1 ∧ ps.C.admits v.2.2

/-- Errors that can escape `get_growth_rates`: a missing column
(polars `ColumnNotFoundError`, the spec's `SchemaError`) or a fit
failure inside lmfit (the spec's `FitConvergenceError`). -/
inductive FitError where
  | schemaError (column : String)
  | convergenceError (msg : String)
deriving DecidableEq

/-- A persistent-storage action performed by `get_growth_rates` when
`out_dir` is given: workbook creation/closing, the per-channel
`fit_report` text file, and the per-channel best-fit worksheet. -/
inductive WriteAction where
  | createWorkbook (path : String)
  | writeTextReport (path : String)
  | writeSheet (sheetName : String)
  | closeWorkbook (path : String)
deriving DecidableEq

/-- A polars data frame: named columns of numeric values. -/
structure DataFrame where
  cols : List (String × List ℚ)
deriving DecidableEq

/-- Indexing `df[name]`: the first column called `name`, if any. -/
def DataFrame.getCol (df : DataFrame) (name : String) : Option (List ℚ) :=
  (df.cols.find? (fun c => c.1 == name)).map (fun c => c.2)

/-- The fitting loop of `get_growth_rates`
(`for wv in wavelengths: y = biomass_df[wv]...; fit_results[wv] = fit_gompertz(...)`).
The lmfit optimizer is external; it is abstracted by `fitFn x0 xmin t y`,
which may fail. As in Python, the first exception (missing column or fit
failure) aborts the whole loop. -/
def fitChannels {β : Type} (fitFn : List ℚ → List ℚ → List ℚ → List ℚ → Except String β)
    (df : DataFrame) (x0 xmin t : List ℚ) :
    List String → Except FitError (List (String × β))
  | [] => .ok []
  | wv :: rest =>
    match df.getCol wv with
    | none => .error (.schemaError wv)
    | some y =>
      match fitFn x0 xmin t y with
      | .error m => .error (.convergenceError m)
      | .ok res => (fitChannels fitFn df x0 xmin t rest).map (fun tail => (wv, res) :: tail)

/-- The writes performed by the `if out_dir:` block of
`get_growth_rates`: one workbook `out_dir + "/best_fit.xlsx"`, and per
fitted channel one `lmfit_<key>_report` text file and one worksheet. -/
def exportWrites {β : Type} (outDir : Option String) (results : List (String × β)) :
    List WriteAction :=
  match outDir with
  | none => []
  | some d =>
    WriteAction.createWorkbook (d ++ "/best_fit.xlsx") ::
      (results.flatMap (fun kr =>
        [WriteAction.writeTextReport (d ++ "/lmfit_" ++ kr.1 ++ "_report"),
         WriteAction.writeSheet kr.1])
        ++ [WriteAction.closeWorkbook (d ++ "/best_fit.xlsx")])

/-- Function `get_growth_rates(biomass_df, wavelengths, x0, xmin, out_dir)` from
`models.py`. Defaults: `wavelengths = ["800"]`, `x0 = [0.1, 0.1, 20]`,
`xmin = [0, 0, 0]`. Reads `biomass_df["time"]`, fits every requested
wavelength in order, then, only when `out_dir` is given, persists the
reports and the workbook itself. Returns the per-channel results
together with the trace of persistence actions performed. -/
def get_growth_rates {β : Type}
    (fitFn : List ℚ → List ℚ → List ℚ → List ℚ → Except String β)
    (df : DataFrame) (wavelengths : Option (List String))
    (x0 xmin : Option (List ℚ)) (outDir : Option String) :
    Except FitError (List (String × β) × List WriteAction) :=
  let wvs := wavelengths.getD ["800"]
  let x0v := x0.getD [0.1, 0.1, 20]
  let xminv := xmin.getD [0, 0, 0]
  match df.getCol "time" with
  | none => .error (.schemaError "time")
  | some t =>
    (fitChannels fitFn df x0v xminv t wvs).map
      (fun results => (results, exportWrites outDir results))

/-! ### biomass.py : load_tecan (TimeSeriesNormalizer) -/

/-- One absorbance row of a tecan sheet after the `Wavel.` → `well`
rename: the well id and its numeric readings. -/
structure TecanRow where
  well : String
  vals : List ℚ
deriving DecidableEq

/-- One tecan sheet: its absorbance rows, the optional well→sample-id
key table read when `keys_options` is passed, and the sheet's timestamp
(the parsed date, in integer seconds). -/
structure Sheet where
  rows : List TecanRow
  keys : Option (List (String × String))
  date : ℤ
deriving DecidableEq

/-- Join `df_dict[sheet].join(v, on="well")` from `load_tecan`: the polars
default inner join on the `well` column. Each reading row is paired with
every key row carrying the same well; reading rows with no matching key
row produce nothing. -/
def joinOnWell (rows : List TecanRow) (ks : List (String × String)) :
    List (TecanRow × String) :=
  rows.flatMap (fun r => (ks.filter (fun k => k.1 == r.well)).map (fun k => (r, k.2)))

/-- The rows a sheet contributes after the optional key join: untouched
(with no sample id) when `keys_options` is absent, inner-joined with the
key table otherwise. -/
def sheetRows (s : Sheet) : List (TecanRow × Option String) :=
  match s.keys with
  | none => s.rows.map (fun r => (r, none))
  | some ks => (joinOnWell s.rows ks).map (fun p => (p.1, some p.2))

/-- All rows pooled over every sheet of every file
(`pl.concat(df_dict.values())`, then `pl.concat(files_dict.values())`),
each row carrying its sheet's date (`with_columns(date = v[0, 0])`). -/
def pooledRows (sheets : List Sheet) : List (TecanRow × Option String × ℤ) :=
  sheets.flatMap (fun s => (sheetRows s).map (fun p => (p.1, p.2, s.date)))

/-- One row of the normalized optical-density series produced by
`load_tecan`: well, readings, optional sample id, timestamp, and elapsed
time in fractional days. -/
structure ODRow where
  well : String
  vals : List ℚ
  sample : Option String
  date : ℤ
  time : ℚ
deriving DecidableEq

/-- The ordering `sort("date")` uses on pooled rows. -/
def byDate (a b : TecanRow × Option String × ℤ) : Prop :=
  a.2.2 ≤ b.2.2

instance : DecidableRel byDate := fun a b => Int.decLe a.2.2 b.2.2

instance : IsTotal (TecanRow × Option String × ℤ) byDate :=
  ⟨fun a b => le_total a.2.2 b.2.2⟩

instance : IsTrans (TecanRow × Option String × ℤ) byDate :=
  ⟨fun _ _ _ hab hbc => le_trans hab hbc⟩

/-- Function `load_tecan` from `biomass.py`, after reading: pool every sheet's
rows, `sort("date")` (a stable sort on the date column), then
`time = (pl.col("date") - od_df[0, -1]).dt.total_seconds() / (3600 * 24)`.
`od_df[0, -1]` is the first sorted row's last column, which is its
`date`. An empty pool is the degenerate case in which polars raises
before this point; it is modelled as the empty series. -/
def load_tecan (sheets : List Sheet) : List ODRow :=
  match List.insertionSort byDate (pooledRows sheets) with
  | [] => []
  | first :: rest =>
    (first :: rest).map (fun p =>
      ⟨p.1.well, p.1.vals, p.2.1, p.2.2, ((p.2.2 : ℚ) - (first.2.2 : ℚ)) / (3600 * 24)⟩)

/-! ### biomass.py : get_dw_df (BiomassAggregator) -/

/-- One row of the raw dry-weight table: the `type` column, the
`Biomass (g/L)` concentration, and the `date` timestamp (integer
seconds). -/
structure DwRow where
  typ : String
  conc : ℚ
  date : ℤ
deriving DecidableEq

/-- Arithmetic mean of a list of rationals (polars `pl.mean`; `0` on the
empty list, which never arises for a `group_by` group). -/
def listMean (xs : List ℚ) : ℚ :=
  xs.sum / xs.length

/-- Sample variance with `ddof = 1`, the square of polars `pl.std`:
`none` (polars `null`) when fewer than two elements are present. -/
def sampleVariance (xs : List ℚ) : Option ℚ :=
  if xs.length ≤ 1 then none
  else some ((xs.map (fun x => (x - listMean xs) ^ 2)).sum / ((xs.length : ℚ) - 1))

/-- One aggregated dry-weight row: the group's date, the mean
concentration, the sample variance (`pl.std` squared, `none` for the
polars `null` of a singleton group), and the raw elapsed time
`date - dw_df[0, 0]` (a duration in the raw timestamp units, not
days). -/
structure DwAgg where
  date : ℤ
  mean : ℚ
  variance : Option ℚ
  time : ℤ
deriving DecidableEq

/-- The `std` column itself: polars `pl.std` is the square root of the
sample variance, `null` (here `none`) when that is undefined. -/
noncomputable def DwAgg.std (a : DwAgg) : Option ℝ :=
  a.variance.map (fun q => Real.sqrt (q : ℝ))

/-- The `filter(pl.col("type") == "VSS")` step of `get_dw_df`. -/
def filterVSS (rows : List DwRow) : List DwRow :=
  rows.filter (fun r => r.typ == "VSS")

/-- The concentrations of the group of a given date. -/
def groupConcs (rows : List DwRow) (d : ℤ) : List ℚ :=
  (rows.filter (fun r => r.date == d)).map (fun r => r.conc)

/-- The distinct group keys of `group_by("date")`, in the ascending
order that the subsequent `sort("date")` puts them in. -/
def dwKeys (rows : List DwRow) : List ℤ :=
  List.insertionSort (fun a b => a ≤ b)
    (((filterVSS rows).map (fun r => r.date)).dedup)

/-- Function `get_dw_df` from `biomass.py`: filter to `VSS`, `group_by("date")`
with `pl.mean` and `pl.std` of `Biomass (g/L)`, `sort("date")`, then
`time = pl.col("date") - dw_df[0, 0]` where `dw_df[0, 0]` is the first
sorted row's `date`. -/
def get_dw_df (rows : List DwRow) : List DwAgg :=
  match dwKeys rows with
  | [] => []
  | d0 :: rest =>
    (d0 :: rest).map (fun d =>
      ⟨d, listMean (groupConcs (filterVSS rows) d),
        sampleVariance (groupConcs (filterVSS rows) d), d - d0⟩)

/-- Concrete frame for the C2/C5 examples: a `time` column and an `800`
channel, and no `999` channel. -/
def dfFit : DataFrame := ⟨[("time", [0, 1, 2]), ("800", [1, 2, 3])]⟩

/-- A stand-in optimizer that always converges (to the value `0`). -/
def okFit : List ℚ → List ℚ → List ℚ → List ℚ → Except String ℚ :=
  fun _ _ _ _ => .ok 0

/-- A raw dry-weight table with a single `VSS` sample, for the C6
example. -/
def dwSingleRow : List DwRow := [⟨"VSS", 1, 0⟩]

/-- A raw dry-weight table with three `VSS` rows over two timestamps
plus one non-`VSS` row, for the C7 example. -/
def dwWitnessRows : List DwRow :=
  [⟨"VSS", 1, 100⟩, ⟨"VSS", 2, 100⟩, ⟨"TSS", 5, 50⟩, ⟨"VSS", 3, 200⟩]

/-- Two one-row tecan sheets with out-of-order dates, for the C3/C8
examples. -/
def tecanWitnessSheets : List Sheet :=
  [⟨[⟨"A1", [1]⟩], none, 200⟩, ⟨[⟨"A1", [2]⟩], none, 100⟩]

/-! ### Theorems -/

/-- C1: for every time `t` and parameters `A`, `B`, `C` with `A` nonzero,
the growth model function `gompertz` computes exactly
`A * exp(-exp((B*e/A)*(C - t) + 1))`, the formula of the spec
(`growthModelSpecValue`), where `e` is Euler's number. -/
theorem gompertz_matches_spec (t A B C : ℝ) (hA : A ≠ 0) :
    gompertz t A B C = growthModelSpecValue t A B C := rfl

/-- Witness for C1 at `t = 0`, `A = 1`, `B = 1`, `C = 0`. -/
theorem gompertz_matches_spec_witness :
    (1 : ℝ) ≠ 0 ∧ gompertz 0 1 1 0 = growthModelSpecValue 0 1 1 0 :=
  ⟨one_ne_zero, gompertz_matches_spec 0 1 1 0 one_ne_zero⟩

/-- C9: the box constraints `fit_gompertz` hands to the optimizer are
satisfied by a parameter triple exactly when each component is at least
its configured lower bound — so each parameter is constrained from
below by `xmin`, and no upper bound is imposed on any parameter. -/
theorem fit_gompertz_bounds (a b c : ℝ) (xmin v : ℝ × ℝ × ℝ) :
    (fit_gompertz_params a b c xmin).admits v ↔
      xmin.1 ≤ v.1 ∧ xmin.2.1 ≤ v.2.1 ∧ xmin.2.2 ≤ v.2.2 := by
  simp [fit_gompertz_params, make_params, GompertzParamSet.admits, ParamCfg.admits]

/-- Value of the model at `t = C` for `A = 1`, `B = 0.5`, `C = 10`:
the inner exponent collapses to `1`, so the value is `exp (-exp 1)`,
that is `A·exp(−e) ≈ 0.0660·A`. -/
lemma gompertz_inflection_eval :
    gompertz 10 1 (0.5 : ℝ) 10 = Real.exp (-Real.exp 1) := by
  unfold gompertz
  norm_num

/-- C4 counterexample: at `t = C` with `A = 1.0`, `B = 0.5`, `C = 10.0`
the model value is `exp(-e) < 1/3`, hence not within `1e-3` of
`0.3679 * A`. -/
theorem gompertz_at_C_not_near_0_3679 :
    ¬ |gompertz 10 1 (0.5 : ℝ) 10 - 0.3679 * 1| ≤ 1e-3 := by
  rw [gompertz_inflection_eval]
  intro h
  have h1 : (2 : ℝ) < Real.exp 1 := lt_trans (by norm_num) Real.exp_one_gt_d9
  have h2 : Real.exp (-Real.exp 1) < Real.exp (-2) := Real.exp_lt_exp.mpr (by linarith)
  have h3 : (3 : ℝ) ≤ Real.exp 2 := by linarith [Real.add_one_le_exp (2 : ℝ)]
  have h4 : Real.exp (-2) ≤ 1 / 3 := by
    rw [Real.exp_neg]
    calc (Real.exp 2)⁻¹ ≤ (3 : ℝ)⁻¹ := inv_anti₀ (by norm_num) h3
    _ = 1 / 3 := by norm_num
  have h5 := (abs_le.mp h).1
  linarith

/-- C4 amended: at `t = C` with `A = 1.0`, `B = 0.5`, `C = 10.0` the
growth model evaluates exactly to `A·exp(−e)` (numerically
`≈ 0.0660·A`), not to `0.3679·A`. -/
theorem gompertz_at_C_exact :
    gompertz 10 1 (0.5 : ℝ) 10 = Real.exp (-Real.exp 1) :=
  gompertz_inflection_eval

/-- C10: the optional well-to-sample-identity join of `load_tecan` is a
polars inner join on `well`: a reading row whose well does not occur in
the key batch contributes no row to the joined result. -/
theorem joinOnWell_drops_unmatched (rows : List TecanRow)
    (ks : List (String × String)) (w : String) (p : TecanRow × String)
    (hw : w ∉ ks.map Prod.fst) (hp : p ∈ joinOnWell rows ks) :
    p.1.well ≠ w := by
  simp only [joinOnWell, List.mem_flatMap, List.mem_map, List.mem_filter,
    beq_iff_eq] at hp
  obtain ⟨r, _, k, ⟨hk, hkw⟩, rfl⟩ := hp
  intro hweq
  exact hw (List.mem_map.mpr ⟨k, hk, hkw.trans hweq⟩)

/-- Witness for C10: well `A1` has no key entry, so the surviving joined
row comes from well `B1` and is not an `A1` row. -/
theorem joinOnWell_drops_unmatched_witness :
    ("A1" ∉ [("B1", "s1")].map Prod.fst) ∧
    ((⟨⟨"B1", [2]⟩, "s1"⟩ : TecanRow × String) ∈
      joinOnWell [⟨"A1", [1]⟩, ⟨"B1", [2]⟩] [("B1", "s1")]) ∧
    (⟨⟨"B1", [2]⟩, "s1"⟩ : TecanRow × String).1.well ≠ "A1" :=
  ⟨by decide, by decide,
    joinOnWell_drops_unmatched [⟨"A1", [1]⟩, ⟨"B1", [2]⟩] [("B1", "s1")] "A1"
      ⟨⟨"B1", [2]⟩, "s1"⟩ (by decide) (by decide)⟩

/-- If some requested wavelength has no column in the data frame, the
fitting loop raises: the whole loop result is an error. -/
lemma fitChannels_error_of_missing {β : Type}
    (fitFn : List ℚ → List ℚ → List ℚ → List ℚ → Except String β)
    (df : DataFrame) (x0 xmin t : List ℚ) (wvs : List String)
    (h : ∃ wv ∈ wvs, df.getCol wv = none) :
    ∃ e, fitChannels fitFn df x0 xmin t wvs = .error e := by
  induction wvs with
  | nil => simp at h
  | cons wv rest ih =>
    obtain ⟨w, hw, hnone⟩ := h
    rcases List.mem_cons.mp hw with rfl | hmem
    · exact ⟨.schemaError w, by simp [fitChannels, hnone]⟩
    · cases hcol : df.getCol wv with
      | none => exact ⟨.schemaError wv, by simp [fitChannels, hcol]⟩
      | some y =>
        cases hfit : fitFn x0 xmin t y with
        | error m => exact ⟨.convergenceError m, by simp [fitChannels, hcol, hfit]⟩
        | ok res =>
          obtain ⟨e, he⟩ := ih ⟨w, hmem, hnone⟩
          exact ⟨e, by simp [fitChannels, hcol, hfit, he, Except.map]⟩

/-- C2 amended: a failure on one requested channel aborts the whole
call. In particular, when any requested wavelength is missing from the
data frame, `get_growth_rates` raises and returns no result at all —
not even for the channels whose fit would converge. -/
theorem get_growth_rates_failure_aborts_all {β : Type}
    (fitFn : List ℚ → List ℚ → List ℚ → List ℚ → Except String β)
    (df : DataFrame) (wavelengths : Option (List String))
    (x0 xmin : Option (List ℚ)) (outDir : Option String) (wv : String)
    (hwv : wv ∈ wavelengths.getD ["800"]) (hnone : df.getCol wv = none) :
    (get_growth_rates fitFn df wavelengths x0 xmin outDir).isOk = false := by
  cases hcol : df.getCol "time" with
  | none => simp [get_growth_rates, hcol, Except.isOk, Except.toBool]
  | some t =>
    obtain ⟨e, he⟩ := fitChannels_error_of_missing fitFn df
      (x0.getD [0.1, 0.1, 20]) (xmin.getD [0, 0, 0]) t
      (wavelengths.getD ["800"]) ⟨wv, hwv, hnone⟩
    simp [get_growth_rates, hcol, he, Except.map, Except.isOk, Except.toBool]

/-- Witness for C2 amended: requesting `["999", "800"]` on `dfFit`
(which lacks `999`) makes the whole call fail. -/
theorem get_growth_rates_failure_aborts_all_witness :
    "999" ∈ ((some ["999", "800"] : Option (List String)).getD ["800"]) ∧
    dfFit.getCol "999" = none ∧
    (get_growth_rates okFit dfFit (some ["999", "800"]) none none none).isOk = false :=
  ⟨by decide, by decide,
    get_growth_rates_failure_aborts_all okFit dfFit (some ["999", "800"])
      none none none "999" (by decide) (by decide)⟩

/-- C2 counterexample: channel `800` exists in `dfFit` and its fit
converges (`okFit` always converges), yet requesting `["999", "800"]`
returns a single `SchemaError` and no per-channel result for `800` —
the failure on `999` aborts fitting of the remaining channels. -/
theorem get_growth_rates_abort_cex :
    get_growth_rates okFit dfFit (some ["999", "800"]) none none none
      = Except.error (FitError.schemaError "999") := rfl

/-- C5 amended: the fitter performs no persistence only when `out_dir`
is `None`; in that case the write trace is empty. (When `out_dir` is
given, `get_growth_rates` writes the workbook and the per-channel
reports itself — see the counterexample.) -/
theorem get_growth_rates_pure_without_out_dir {β : Type}
    (fitFn : List ℚ → List ℚ → List ℚ → List ℚ → Except String β)
    (df : DataFrame) (wavelengths : Option (List String))
    (x0 xmin : Option (List ℚ))
    (results : List (String × β)) (writes : List WriteAction)
    (h : get_growth_rates fitFn df wavelengths x0 xmin none = .ok (results, writes)) :
    writes = [] := by
  cases hcol : df.getCol "time" with
  | none => simp [get_growth_rates, hcol] at h
  | some t =>
    cases hfit : fitChannels fitFn df (x0.getD [0.1, 0.1, 20]) (xmin.getD [0, 0, 0]) t
        (wavelengths.getD ["800"]) with
    | error e => simp [get_growth_rates, hcol, hfit, Except.map] at h
    | ok r =>
      simp [get_growth_rates, hcol, hfit, Except.map, exportWrites] at h
      exact h.2

/-- Witness for C5 amended: with `out_dir = None` the call on `dfFit`
succeeds with an empty write trace. -/
theorem get_growth_rates_pure_without_out_dir_witness :
    get_growth_rates okFit dfFit none none none none
      = Except.ok ([("800", (0 : ℚ))], ([] : List WriteAction)) ∧
    ([] : List WriteAction) = [] :=
  ⟨rfl,
    get_growth_rates_pure_without_out_dir okFit dfFit none none none
      [("800", (0 : ℚ))] [] rfl⟩

/-- C5 counterexample: with `out_dir = "out"` the fitter itself
persists the report and the workbook — the returned write trace is the
nonempty list of the four storage actions of the `if out_dir:` block. -/
theorem get_growth_rates_writes_inside_cex :
    get_growth_rates okFit dfFit none none none (some "out")
      = Except.ok ([("800", (0 : ℚ))],
          [WriteAction.createWorkbook "out/best_fit.xlsx",
           WriteAction.writeTextReport "out/lmfit_800_report",
           WriteAction.writeSheet "800",
           WriteAction.closeWorkbook "out/best_fit.xlsx"]) := rfl

/-- The dates of the aggregated dry-weight rows are exactly the sorted
distinct group keys. -/
lemma get_dw_df_dates (rows : List DwRow) :
    (get_dw_df rows).map (fun a => a.date) = dwKeys rows := by
  unfold get_dw_df
  cases hk : dwKeys rows with
  | nil => simp
  | cons d0 rest =>
    have hmap : ∀ l : List ℤ, (List.map (fun d =>
        (⟨d, listMean (groupConcs (filterVSS rows) d),
          sampleVariance (groupConcs (filterVSS rows) d), d - d0⟩ : DwAgg)) l).map
          (fun a => a.date) = l := by
      intro l
      induction l with
      | nil => rfl
      | cons x xs ih => simp [ih]
    exact hmap (d0 :: rest)

/-- The group keys are sorted ascending. -/
lemma dwKeys_sorted (rows : List DwRow) :
    List.Sorted (fun a b : ℤ => a ≤ b) (dwKeys rows) :=
  List.sorted_insertionSort _ _

/-- A date is a group key exactly when some `VSS` row carries it. -/
lemma mem_dwKeys (rows : List DwRow) (d : ℤ) :
    d ∈ dwKeys rows ↔ ∃ r ∈ filterVSS rows, r.date = d := by
  unfold dwKeys
  rw [(List.perm_insertionSort _ _).mem_iff, List.mem_dedup, List.mem_map]

/-- Decomposition of membership in `get_dw_df`: every aggregated row is
built from a group key, with the group's mean and sample variance, and
with elapsed time relative to the first sorted key. -/
lemma mem_get_dw_df (rows : List DwRow) (a : DwAgg) (d0 : ℤ) (rest : List ℤ)
    (hk : dwKeys rows = d0 :: rest) (ha : a ∈ get_dw_df rows) :
    a.date ∈ dwKeys rows ∧
    a.mean = listMean (groupConcs (filterVSS rows) a.date) ∧
    a.variance = sampleVariance (groupConcs (filterVSS rows) a.date) ∧
    a.time = a.date - d0 := by
  unfold get_dw_df at ha
  rw [hk] at ha
  simp only [List.mem_map] at ha
  obtain ⟨d, hd, rfl⟩ := ha
  exact ⟨by rw [hk]; exact hd, rfl, rfl, rfl⟩

/-- The first sorted group key is the earliest date among the filtered
rows. -/
lemma dwKeys_head_min (rows : List DwRow) (d0 : ℤ) (rest : List ℤ)
    (hk : dwKeys rows = d0 :: rest) :
    d0 ∈ (filterVSS rows).map (fun r => r.date) ∧
    ∀ b ∈ (filterVSS rows).map (fun r => r.date), d0 ≤ b := by
  have hsort := dwKeys_sorted rows
  rw [hk] at hsort
  constructor
  · have hmem : d0 ∈ dwKeys rows := by rw [hk]; exact List.mem_cons_self _ _
    unfold dwKeys at hmem
    rw [(List.perm_insertionSort _ _).mem_iff, List.mem_dedup] at hmem
    exact hmem
  · intro b hb
    have hbk : b ∈ dwKeys rows := by
      unfold dwKeys
      rw [(List.perm_insertionSort _ _).mem_iff, List.mem_dedup]
      exact hb
    rw [hk] at hbk
    rcases List.mem_cons.mp hbk with rfl | hbrest
    · exact le_refl _
    · exact (List.pairwise_cons.mp hsort).1 b hbrest

/-- C6: an aggregated dry-weight group with exactly one replicate at its
timestamp has an undefined standard deviation (`none`, the polars null
that plays the role of the spec's NaN): no error is raised and the value
is never zero. -/
theorem get_dw_df_singleton_group_std (rows : List DwRow) (a : DwAgg)
    (ha : a ∈ get_dw_df rows)
    (h1 : (groupConcs (filterVSS rows) a.date).length = 1) :
    a.std = none ∧ a.std ≠ some 0 := by
  cases hk : dwKeys rows with
  | nil =>
    unfold get_dw_df at ha
    rw [hk] at ha
    simp at ha
  | cons d0 rest =>
    obtain ⟨-, -, hvar, -⟩ := mem_get_dw_df rows a d0 rest hk ha
    have : a.std = none := by simp [DwAgg.std, hvar, sampleVariance, h1]
    exact ⟨this, by simp [this]⟩

/-- Witness for C6: one single `VSS` sample at date `0` aggregates to a
row with undefined standard deviation. -/
theorem get_dw_df_singleton_group_std_witness :
    ((⟨0, listMean (groupConcs (filterVSS dwSingleRow) 0),
        sampleVariance (groupConcs (filterVSS dwSingleRow) 0), 0⟩ : DwAgg)
      ∈ get_dw_df dwSingleRow) ∧
    (groupConcs (filterVSS dwSingleRow)
      (⟨0, listMean (groupConcs (filterVSS dwSingleRow) 0),
        sampleVariance (groupConcs (filterVSS dwSingleRow) 0), 0⟩ : DwAgg).date).length = 1 ∧
    ((⟨0, listMean (groupConcs (filterVSS dwSingleRow) 0),
        sampleVariance (groupConcs (filterVSS dwSingleRow) 0), 0⟩ : DwAgg).std = none ∧
      (⟨0, listMean (groupConcs (filterVSS dwSingleRow) 0),
        sampleVariance (groupConcs (filterVSS dwSingleRow) 0), 0⟩ : DwAgg).std ≠ some 0) :=
  ⟨List.mem_singleton.mpr rfl, by decide,
    get_dw_df_singleton_group_std dwSingleRow
      ⟨0, listMean (groupConcs (filterVSS dwSingleRow) 0),
        sampleVariance (groupConcs (filterVSS dwSingleRow) 0), 0⟩
      (List.mem_singleton.mpr rfl) (by decide)⟩

/-- C7: `get_dw_df` filters to the `VSS` sample type, groups by
timestamp, computes the per-timestamp mean and (as `std`, the square
root of) the sample variance of the concentration, sorts ascending by
timestamp, and computes `time` as the raw timestamp difference from the
earliest filtered timestamp `m` — an integer duration, not days. -/
theorem get_dw_df_aggregates (rows : List DwRow) (m : ℤ)
    (hm : m ∈ (filterVSS rows).map (fun r => r.date) ∧
          ∀ b ∈ (filterVSS rows).map (fun r => r.date), m ≤ b) :
    List.Sorted (fun a b : ℤ => a ≤ b) ((get_dw_df rows).map (fun a => a.date)) ∧
    (∀ d : ℤ, (∃ a ∈ get_dw_df rows, a.date = d) ↔ ∃ r ∈ filterVSS rows, r.date = d) ∧
    (∀ a ∈ get_dw_df rows,
      a.mean = listMean (groupConcs (filterVSS rows) a.date) ∧
      a.std = (sampleVariance (groupConcs (filterVSS rows) a.date)).map
        (fun q => Real.sqrt (q : ℝ)) ∧
      a.time = a.date - m) := by
  refine ⟨?_, ?_, ?_⟩
  · rw [get_dw_df_dates]
    exact dwKeys_sorted rows
  · intro d
    rw [← mem_dwKeys, ← get_dw_df_dates]
    simp [List.mem_map]
  · intro a ha
    cases hk : dwKeys rows with
    | nil =>
      unfold get_dw_df at ha
      rw [hk] at ha
      simp at ha
    | cons d0 rest =>
      obtain ⟨-, hmean, hvar, htime⟩ := mem_get_dw_df rows a d0 rest hk ha
      obtain ⟨hd0mem, hd0min⟩ := dwKeys_head_min rows d0 rest hk
      have hmd0 : m = d0 := le_antisymm (hm.2 d0 hd0mem) (hd0min m hm.1)
      exact ⟨hmean, by simp [DwAgg.std, hvar], by rw [htime, hmd0]⟩

/-- Witness for C7 on three `VSS` rows over two timestamps and one
non-`VSS` row, with earliest filtered timestamp `100`. -/
theorem get_dw_df_aggregates_witness :
    ((100 : ℤ) ∈ (filterVSS dwWitnessRows).map (fun r => r.date) ∧
      ∀ b ∈ (filterVSS dwWitnessRows).map (fun r => r.date), (100 : ℤ) ≤ b) ∧
    (List.Sorted (fun a b : ℤ => a ≤ b)
        ((get_dw_df dwWitnessRows).map (fun a => a.date)) ∧
      (∀ d : ℤ, (∃ a ∈ get_dw_df dwWitnessRows, a.date = d) ↔
        ∃ r ∈ filterVSS dwWitnessRows, r.date = d) ∧
      (∀ a ∈ get_dw_df dwWitnessRows,
        a.mean = listMean (groupConcs (filterVSS dwWitnessRows) a.date) ∧
        a.std = (sampleVariance (groupConcs (filterVSS dwWitnessRows) a.date)).map
          (fun q => Real.sqrt (q : ℝ)) ∧
        a.time = a.date - 100)) :=
  ⟨⟨by decide, by decide⟩,
    get_dw_df_aggregates dwWitnessRows 100 ⟨by decide, by decide⟩⟩

/-- Unfolding of `load_tecan` once the sorted pool is known. -/
lemma load_tecan_decomp (sheets : List Sheet)
    (first : TecanRow × Option String × ℤ)
    (rest : List (TecanRow × Option String × ℤ))
    (hs : List.insertionSort byDate (pooledRows sheets) = first :: rest) :
    load_tecan sheets = (first :: rest).map (fun p =>
      ⟨p.1.well, p.1.vals, p.2.1, p.2.2,
        ((p.2.2 : ℚ) - (first.2.2 : ℚ)) / (3600 * 24)⟩) := by
  unfold load_tecan
  rw [hs]

/-- The first row of the sorted pool carries the earliest pooled date. -/
lemma sorted_pool_head_min (sheets : List Sheet)
    (first : TecanRow × Option String × ℤ)
    (rest : List (TecanRow × Option String × ℤ))
    (hs : List.insertionSort byDate (pooledRows sheets) = first :: rest) :
    first.2.2 ∈ (pooledRows sheets).map (fun p => p.2.2) ∧
    ∀ b ∈ (pooledRows sheets).map (fun p => p.2.2), first.2.2 ≤ b := by
  have hperm := List.perm_insertionSort byDate (pooledRows sheets)
  rw [hs] at hperm
  have hsort := List.sorted_insertionSort byDate (pooledRows sheets)
  rw [hs] at hsort
  constructor
  · exact List.mem_map.mpr ⟨first, hperm.mem_iff.mp (List.mem_cons_self _ _), rfl⟩
  · intro b hb
    obtain ⟨p, hp, rfl⟩ := List.mem_map.mp hb
    have hpmem : p ∈ first :: rest := hperm.mem_iff.mpr hp
    rcases List.mem_cons.mp hpmem with rfl | hprest
    · exact le_refl _
    · exact (List.pairwise_cons.mp hsort).1 p hprest

/-- C3: for every non-empty pooled set of raw tecan batches, the first
row of the normalized, date-sorted series has `time = 0`, and `time` is
monotonically non-decreasing across the series. -/
theorem load_tecan_time_normalized (sheets : List Sheet)
    (h : pooledRows sheets ≠ []) :
    ((load_tecan sheets).head?.map (fun r => r.time) = some 0) ∧
    List.Sorted (fun a b : ℚ => a ≤ b) ((load_tecan sheets).map (fun r => r.time)) := by
  cases hs : List.insertionSort byDate (pooledRows sheets) with
  | nil =>
    exfalso
    have hperm := List.perm_insertionSort byDate (pooledRows sheets)
    rw [hs] at hperm
    exact h (List.Perm.eq_nil hperm.symm)
  | cons first rest =>
    have hd := load_tecan_decomp sheets first rest hs
    have hsort := List.sorted_insertionSort byDate (pooledRows sheets)
    rw [hs] at hsort
    constructor
    · rw [hd]
      simp
    · rw [hd, List.map_map]
      refine List.pairwise_map.mpr (hsort.imp ?_)
      intro a b hab
      have hsub : (a.2.2 : ℚ) - (first.2.2 : ℚ) ≤ (b.2.2 : ℚ) - (first.2.2 : ℚ) :=
        sub_le_sub_right (Int.cast_le.mpr hab) _
      exact div_le_div_of_nonneg_right hsub (by norm_num)

/-- Witness for C3 on two one-row sheets with out-of-order dates. -/
theorem load_tecan_time_normalized_witness :
    pooledRows tecanWitnessSheets ≠ [] ∧
    (((load_tecan tecanWitnessSheets).head?.map (fun r => r.time) = some 0) ∧
      List.Sorted (fun a b : ℚ => a ≤ b)
        ((load_tecan tecanWitnessSheets).map (fun r => r.time))) :=
  ⟨by decide, load_tecan_time_normalized tecanWitnessSheets (by decide)⟩

/-- C8: every row of the normalized optical-density series has
`time = (row.date − m) / 86400`, the elapsed seconds from the earliest
pooled timestamp `m`, expressed in fractional days. -/
theorem load_tecan_elapsed_days (sheets : List Sheet) (m : ℤ) (r : ODRow)
    (hm : m ∈ (pooledRows sheets).map (fun p => p.2.2) ∧
          ∀ b ∈ (pooledRows sheets).map (fun p => p.2.2), m ≤ b)
    (hr : r ∈ load_tecan sheets) :
    r.time = ((r.date - m : ℤ) : ℚ) / 86400 := by
  cases hs : List.insertionSort byDate (pooledRows sheets) with
  | nil =>
    exfalso
    unfold load_tecan at hr
    rw [hs] at hr
    simp at hr
  | cons first rest =>
    have hd := load_tecan_decomp sheets first rest hs
    rw [hd] at hr
    obtain ⟨p, hp, rfl⟩ := List.mem_map.mp hr
    obtain ⟨hfmem, hfmin⟩ := sorted_pool_head_min sheets first rest hs
    have hmf : m = first.2.2 := le_antisymm (hm.2 _ hfmem) (hfmin m hm.1)
    show ((p.2.2 : ℚ) - (first.2.2 : ℚ)) / (3600 * 24) = ((p.2.2 - m : ℤ) : ℚ) / 86400
    rw [hmf]
    push_cast
    norm_num

/-- Evaluation of `load_tecan` on the witness sheets: the earliest row
(date `100`) comes first with `time = 0`; the other row is
`100` seconds later, `5/4320` of a day. -/
lemma load_tecan_witness_eval :
    load_tecan tecanWitnessSheets =
      [⟨"A1", [2], none, 100, 0⟩, ⟨"A1", [1], none, 200, 5 / 4320⟩] := by
  norm_num [load_tecan, pooledRows, sheetRows, tecanWitnessSheets,
    List.insertionSort, List.orderedInsert, byDate]

/-- Witness for C8: the second-listed sheet has the earliest date `100`;
its row in the normalized series has `time = (100 - 100) / 86400 = 0`. -/
theorem load_tecan_elapsed_days_witness :
    ((100 : ℤ) ∈ (pooledRows tecanWitnessSheets).map (fun p => p.2.2) ∧
      ∀ b ∈ (pooledRows tecanWitnessSheets).map (fun p => p.2.2), (100 : ℤ) ≤ b) ∧
    ((⟨"A1", [2], none, 100, 0⟩ : ODRow) ∈ load_tecan tecanWitnessSheets) ∧
    (⟨"A1", [2], none, 100, 0⟩ : ODRow).time
      = (((100 : ℤ) - 100 : ℤ) : ℚ) / 86400 :=
  ⟨⟨by decide, by decide⟩, by simp [load_tecan_witness_eval],
    load_tecan_elapsed_days tecanWitnessSheets 100
      ⟨"A1", [2], none, 100, 0⟩
      ⟨by decide, by decide⟩ (by simp [load_tecan_witness_eval])⟩
